import Mathlib

/-!
Verification development for the api_yamdb review service core:
the title schema and review lifecycle, the nested-path
resolver, the confirmation-code flow and the access policy, embedded
shallowly from `api/views.py` and `reviews/models.py`.
-/

namespace Yamdb

/-! ## Title schema and the review lifecycle (reviews/models.py,
api/views.py ReviewVeiewSet) -/

/-- The `Title` model exactly as src declares it (models.py lines
104-133): `name`, `year`, `description`, an optional `category` foreign
key and a `genre` many-to-many.  There is no `rating` and no
`count_review` field, and no property of either name anywhere in src. -/
structure TitleModel where
  name : String
  year : ℤ
  description : String
  category : Option ℕ
  genre : List ℕ
deriving DecidableEq, Repr

/-- The attribute names a `Title` instance exposes: exactly the fields
models.py declares. -/
def titleFields : List String :=
  ["name", "year", "description", "category", "genre"]

/-- The value carried by a declared attribute of a `Title` instance. -/
inductive TitleAttrVal where
  | str (s : String)
  | int (z : ℤ)
  | optNat (c : Option ℕ)
  | natList (g : List ℕ)
deriving DecidableEq, Repr

/-- Python-level failures of the creation path.  `attributeError` is the
`AttributeError` a lookup of an undeclared attribute raises (surfaced by
DRF as an uncaught 500); `conflict` is the store's unique-constraint
violation per the spec's error taxonomy — listed so theorems can state
that it is never the surfaced outcome. -/
inductive PyErr where
  | attributeError
  | conflict
deriving DecidableEq, Repr

/-- Python attribute lookup on a `Title` instance: `getattr` succeeds
exactly for the fields models.py declares and raises `AttributeError`
for anything else — in particular for `rating` and `count_review`. -/
def getattrTitle (t : TitleModel) (a : String) :
    Except PyErr TitleAttrVal :=
  match a with
  | "name" => .ok (.str t.name)
  | "year" => .ok (.int t.year)
  | "description" => .ok (.str t.description)
  | "category" => .ok (.optNat t.category)
  | "genre" => .ok (.natList t.genre)
  | _ => .error .attributeError

/-- A persisted review row for a fixed title: the author id and the
integer score (models.py `Review`: `author` foreign key, `score` field).
The `title` foreign key is implicit: all rows below belong to the one
title under consideration. -/
structure ReviewRec where
  author : ℕ
  score : ℤ
deriving DecidableEq, Repr

/-- The persisted state a review-lifecycle request can touch: the
resolved title row (with exactly the columns src declares) and that
title's review rows. -/
structure SrcState where
  title : TitleModel
  reviews : List ReviewRec
deriving DecidableEq, Repr

/-- A concrete title row for closed evaluations. -/
def sampleTitle : TitleModel := ⟨"T", 2020, "", none, []⟩

/-- `ReviewVeiewSet.perform_create` (views.py lines 116-131) over the
schema src declares.  Lines 117-118 resolve the title; line 119 takes
the submitted score; line 120, `rating = title.rating`, performs
attribute lookup on the title instance, and `rating` is not among the
declared fields, so the lookup raises `AttributeError`.  The exception
propagates: lines 121-131 — including `title_serializer.save()` (line
130) and `serializer.save(...)` (line 131) — never execute, and nothing
is written.  The `.ok` branch is dead code (`getattrTitle` never
returns a value for `"rating"`, proved in the claim theorems); the
source past line 120 reads values the schema cannot supply, so the dead
branch is embedded as a no-op. -/
def perform_create_src (st : SrcState) (_author : ℕ) (_score : ℤ) :
    Option PyErr × SrcState :=
  match getattrTitle st.title "rating" with
  | .error e => (some e, st)
  | .ok _ => (none, st)

/-- Review deletion: stock `DestroyModelMixin` behaviour
(`ReviewVeiewSet` overrides neither `perform_destroy` nor
`perform_update`), i.e. `instance.delete()` — the review row is removed
and the title row is not written (it carries no aggregate columns to
reset in any case). -/
def performDestroySrc (st : SrcState) (author : ℕ) : SrcState :=
  ⟨st.title, st.reviews.filter (fun r => r.author ≠ author)⟩

/-- Review score update: stock `UpdateModelMixin` behaviour, no
override — the review row changes, the title row is not written. -/
def performUpdateSrc (st : SrcState) (author : ℕ) (newScore : ℤ) :
    SrcState :=
  ⟨st.title,
    st.reviews.map (fun r => if r.author = author then ⟨r.author, newScore⟩ else r)⟩

/-- The unique constraint declared on `Review` (models.py lines
170-174): `UniqueConstraint(name='unique_review', fields=['author',
'title'])`. -/
def reviewUniqueConstraintFields : List String := ["author", "title"]

/-! ## Resource graph resolver (api/views.py, CommentViewSet) -/

/-- A review row as the resolver sees it: primary key and the `title`
foreign key. -/
structure ReviewRow where
  id : ℕ
  title : ℕ
deriving DecidableEq, Repr

/-- The store visible to `CommentViewSet`: the existing title ids and the
review rows. -/
structure ResolverDB where
  titles : List ℕ
  reviews : List ReviewRow
deriving DecidableEq, Repr

/-- Outcomes of resolving the nested path title → review.
`http404` is Django's `Http404` from `get_object_or_404` (rendered as
NotFound); `valueError` is the plain Python `ValueError` raised at
views.py line 145/158, which no handler converts — it surfaces as an
uncaught failure, not as NotFound. -/
inductive ResolveErr where
  | http404
  | valueError
deriving DecidableEq, Repr

/-- `CommentViewSet.get_queryset` / `perform_create` resolution (views.py
lines 137-160): `get_object_or_404(Title, id=title_id)` first, then
`title.reviews.filter(id=review_id).first()` — the first review whose
`title` foreign key is the resolved title and whose id is `review_id` —
raising `ValueError` when that is `None`. -/
def resolveComment (db : ResolverDB) (title_id review_id : ℕ) :
    Except ResolveErr ReviewRow :=
  if title_id ∈ db.titles then
    match (db.reviews.filter
        (fun r => r.title = title_id && r.id = review_id)).head? with
    | some r => .ok r
    | none => .error .valueError
  else
    .error .http404

/-! ## Credential issuer (api/views.py, SignupView / TokenView) -/

/-- A persisted user record as the credential flow sees it (models.py
`User`): username, email and role (the fields the confirmation code is
bound to, together with the rest of the persisted state). -/
structure UserRec where
  username : String
  email : String
  role : String
deriving DecidableEq, Repr

/-- Modelled from the spec: Django's `default_token_generator` is not
under src/.  §4.1: the confirmation code is a "deterministic, single-use
token bound to the user's current persisted state (so any profile change
invalidates prior codes); not stored separately — verified by
recomputation, not lookup".  The code is embedded as a fingerprint of
the user's persisted state. -/
structure ConfCode where
  fingerprint : UserRec
deriving DecidableEq, Repr

/-- `default_token_generator.make_token(user)` (views.py line 171):
deterministic recomputation from the user's current persisted state. -/
def make_token (u : UserRec) : ConfCode := ⟨u⟩

/-- `default_token_generator.check_token(user, code)` (views.py lines
193-195): recomputes the expected code from the user's current state and
compares; returns a Bool, not an exception. -/
def check_token (u : UserRec) (c : ConfCode) : Bool :=
  make_token u = c

/-- The access token minted by `AccessToken().for_user(user)` (views.py
line 197): a bearer token carrying the user's identity claim. -/
structure AccessTok where
  identity : String
deriving DecidableEq, Repr

/-- Errors of `TokenView.post` (views.py lines 186-198): `notFound` is
the `Http404` of `get_object_or_404` on an unknown username;
`invalidCredential` is the DRF `ValidationError` raised on a code
mismatch (line 196). -/
inductive TokenErr where
  | notFound
  | invalidCredential
deriving DecidableEq, Repr

/-- The HTTP status DRF's exception handler assigns to each error:
`Http404` renders as 404; `rest_framework.serializers.ValidationError`
renders as 400 (a validation-style error, not a 401 authentication
failure). -/
def tokenErrStatus : TokenErr → ℕ
  | .notFound => 404
  | .invalidCredential => 400

/-- `TokenView.post` (views.py lines 186-198): look the user up by
username (`get_object_or_404`), check the confirmation code by
recomputation, and mint an access token. -/
def tokenViewPost (users : List UserRec) (username : String)
    (code : ConfCode) : Except TokenErr AccessTok :=
  match users.find? (fun u => u.username = username) with
  | none => .error .notFound
  | some user =>
      if check_token user code then
        .ok ⟨user.username⟩
      else
        .error .invalidCredential

/-! ## Self-service profile path (api/views.py, UserViewSet.get_patch) -/

/-- A full user profile (models.py `User`): the editable fields plus
`role`. -/
structure UserProfile where
  username : String
  email : String
  first_name : String
  last_name : String
  bio : String
  role : String
deriving DecidableEq, Repr

/-- A partial-update payload for the `/me` path (`partial=True` PATCH,
views.py lines 60-66): each field optional, including an attempted
`role` entry. -/
structure MePayload where
  username : Option String := none
  email : Option String := none
  first_name : Option String := none
  last_name : Option String := none
  bio : Option String := none
  role : Option String := none
deriving DecidableEq, Repr

/-- Modelled from the spec: `UserRoleSerializer` (api/serializers.py) is
not under src/.  §4.2 rule 4: on the self-service path a subject "may
not change their own `role` field"; the testable property says a
`role: "admin"` entry is silently ignored while other fields update.
The serializer save applies every provided field except `role`, which is
read-only and keeps the persisted value. -/
def userRoleSerializerSave (u : UserProfile) (p : MePayload) : UserProfile :=
  { username := p.username.getD u.username
    email := p.email.getD u.email
    first_name := p.first_name.getD u.first_name
    last_name := p.last_name.getD u.last_name
    bio := p.bio.getD u.bio
    role := u.role }

/-! ## Access policy for Review/Comment writes -/

/-- User roles (models.py `Role`): user, moderator, admin. -/
inductive Role where
  | user
  | moderator
  | admin
deriving DecidableEq, Repr

/-- An authenticated subject: id, role and the staff flag (models.py
`User.is_staff`, which `is_admin` also honours). -/
structure Subject where
  id : ℕ
  role : Role
  staff : Bool
deriving DecidableEq, Repr

/-- A request principal: anonymous or an authenticated subject. -/
inductive Principal where
  | anon
  | auth (s : Subject)
deriving DecidableEq, Repr

/-- The write actions of the Review/Comment lifecycle. -/
inductive WriteAction where
  | create
  | update
  | delete
deriving DecidableEq, Repr

/-- Outcome of the policy check.  `unauthenticated` is the 401-style
rejection of a credential-less write, checked before rule evaluation;
`forbidden` is the 403-style policy denial for an authenticated
subject. -/
inductive AuthzResult where
  | allow
  | unauthenticated
  | forbidden
deriving DecidableEq, Repr

/-- Modelled from the spec: `IsAdminAuthorModeratorOrReadOnly`
(api/permissions.py) and the DRF authentication layer are not under
src/.  §4.2 rule 3: a write on a Review/Comment is allowed iff the
subject is the resource's author, or has role moderator or admin, or has
the staff flag; an anonymous subject is rejected as unauthenticated
before rule evaluation. -/
def authorizeWrite (p : Principal) (_a : WriteAction)
    (resourceAuthor : ℕ) : AuthzResult :=
  match p with
  | .anon => .unauthenticated
  | .auth s =>
      if s.id = resourceAuthor ∨ s.role = Role.moderator ∨
          s.role = Role.admin ∨ s.staff then
        .allow
      else
        .forbidden

/-! ## Review.score field (reviews/models.py lines 161-165) -/

/-- The model-layer default of `Review.score`: `default=0`. -/
def scoreDefault : ℤ := 0

/-- The field validators attached to `Review.score`, in source order:
`MaxValueValidator(10)`, `MinValueValidator(1)`. -/
def scoreValidators : List (ℤ → Bool) :=
  [fun s => s ≤ 10, fun s => 1 ≤ s]

/-- Whether a score passes every attached field validator. -/
def passesScoreValidators (s : ℤ) : Bool :=
  scoreValidators.all (fun v => v s)

/-- A review row at the model layer for C10: author and score. -/
structure ModelReview where
  author : ℕ
  score : ℤ
deriving DecidableEq, Repr

/-- Constructing a `Review` without an explicit score: Django fills the
field default, `score = 0`. -/
def mkReviewDefault (author : ℕ) : ModelReview :=
  ⟨author, scoreDefault⟩

/-- Django `Model.save()`: inserts the row without running field
validators (validators run only in `full_clean` and in forms /
serializers, not on `save`). -/
def modelSave (db : List ModelReview) (r : ModelReview) :
    List ModelReview :=
  db ++ [r]

/-- The validating serializer layer: runs the field validators and
rejects a row whose score fails them; only then inserts. -/
def serializerSave (db : List ModelReview) (r : ModelReview) :
    Except Unit (List ModelReview) :=
  if passesScoreValidators r.score then
    .ok (db ++ [r])
  else
    .error ()

/-! ## Claim theorems -/

/-- C1: false of the source — `Title` (models.py lines 104-133)
declares no `rating` and no `count_review` field, so the read
`rating = title.rating` at views.py line 120 raises `AttributeError` on
every review creation: the request fails with nothing persisted, no
rating is ever computed, and the claimed mean-after-N-creations state
is unrealizable.  In particular a single creation with score 5 on a
fresh title errors and leaves the state unchanged. -/
theorem c1_creation_crashes_before_any_rating :
    ("rating" ∉ titleFields) ∧
    ("count_review" ∉ titleFields) ∧
    (∀ t : TitleModel,
      getattrTitle t "rating" = .error .attributeError) ∧
    (∀ (st : SrcState) (author : ℕ) (score : ℤ),
      perform_create_src st author score = (some .attributeError, st)) ∧
    perform_create_src ⟨sampleTitle, []⟩ 1 5 =
      (some .attributeError, ⟨sampleTitle, []⟩) := by
  refine ⟨by decide, by decide, fun t => rfl, fun st a s => rfl, rfl⟩

/-- C2: false of the source — there is no aggregate state to satisfy
the invariant and no lifecycle operation maintains one: `rating` and
`count_review` are not attributes of a title (their lookup raises
`AttributeError`), creation crashes before writing anything, and
deletion / score-update (the stock mixins, unoverridden) rewrite only
the review row while the title row — which has no rating to reset to
null — is untouched.  Concretely, deleting the sole review (author 1,
score 5) or updating its score to 9 leaves the title row identical. -/
theorem c2_no_aggregate_fields_and_lifecycle_writes_none :
    (∀ t : TitleModel,
      getattrTitle t "rating" = .error .attributeError ∧
      getattrTitle t "count_review" = .error .attributeError) ∧
    (∀ (st : SrcState) (author : ℕ),
      (performDestroySrc st author).title = st.title) ∧
    (∀ (st : SrcState) (author : ℕ) (ns : ℤ),
      (performUpdateSrc st author ns).title = st.title) ∧
    performDestroySrc ⟨sampleTitle, [⟨1, 5⟩]⟩ 1 = ⟨sampleTitle, []⟩ ∧
    performUpdateSrc ⟨sampleTitle, [⟨1, 5⟩]⟩ 1 9 =
      ⟨sampleTitle, [⟨1, 9⟩]⟩ := by
  refine ⟨fun t => ⟨rfl, rfl⟩, fun st a => rfl, fun st a ns => rfl,
    by decide, by decide⟩

/-- C3: false of the source — the claimed atomic unit never executes.
On every review creation the handler raises `AttributeError` at
views.py line 120 (reading the undeclared `title.rating`) before
`title_serializer.save()` (line 130) and `serializer.save(...)` (line
131), so neither the review nor any title change is ever persisted; in
particular at a duplicate-creation input (a second creation by the
author of an existing review) the store is left exactly as it was —
there is no commit at all, rather than an atomic pair of commits. -/
theorem c3_creation_persists_neither_review_nor_aggregate :
    (∀ (st : SrcState) (author : ℕ) (score : ℤ),
      (perform_create_src st author score).2.reviews = st.reviews ∧
      (perform_create_src st author score).2.title = st.title ∧
      (perform_create_src st author score).1 = some .attributeError) ∧
    perform_create_src ⟨sampleTitle, [⟨1, 4⟩]⟩ 1 10 =
      (some .attributeError, ⟨sampleTitle, [⟨1, 4⟩]⟩) := by
  exact ⟨fun st a s => ⟨rfl, rfl, rfl⟩, rfl⟩

/-- C9: false of the source — the unique (author, title) constraint is
declared on `Review` (models.py lines 170-174), but no creation attempt
ever reaches it through the API: the handler raises `AttributeError` at
views.py line 120 first, so a second review by the same author is
answered with that uncaught error — never with Conflict — and the
stored state, the first review included, is untouched because the
failure precedes every save. -/
theorem c9_duplicate_attempt_errors_before_constraint :
    reviewUniqueConstraintFields = ["author", "title"] ∧
    (∀ (st : SrcState) (author : ℕ) (score : ℤ),
      (perform_create_src st author score).1 = some .attributeError ∧
      (perform_create_src st author score).1 ≠ some .conflict ∧
      (perform_create_src st author score).2 = st) ∧
    perform_create_src ⟨sampleTitle, [⟨2, 6⟩]⟩ 2 2 =
      (some .attributeError, ⟨sampleTitle, [⟨2, 6⟩]⟩) := by
  refine ⟨rfl, fun st a s => ⟨rfl, ?_, rfl⟩, rfl⟩
  intro h
  exact PyErr.noConfusion (Option.some.inj h)


/-- C5 counterexample: with titles 5 and 9 present and review 7
belonging to title 9, `ResolveComment(title=5, review=7)` does not
return NotFound — the source raises a plain `ValueError` (an uncaught
generic failure), contradicting the claim. -/
theorem c5_counterexample_value_error_not_notfound :
    resolveComment ⟨[5, 9], [⟨7, 9⟩]⟩ 5 7 = .error .valueError ∧
    resolveComment ⟨[5, 9], [⟨7, 9⟩]⟩ 5 7 ≠ .error .http404 := by
  refine ⟨rfl, fun h => ?_⟩
  injection h with h2
  cases h2

/-- C5 (amended): resolution first resolves the Title — a missing title
id yields NotFound (`Http404`) — and then requires the review's `title`
foreign key to equal the resolved title; but a review that exists under
a different title yields a generic uncaught `ValueError`, not
NotFound. -/
theorem c5_mismatched_review_raises_generic_value_error
    (db : ResolverDB) (tid rid : ℕ) (ht : tid ∈ db.titles)
    (hm : ∀ r ∈ db.reviews, r.id = rid → r.title ≠ tid) :
    resolveComment db tid rid = .error .valueError ∧
    ResolveErr.valueError ≠ ResolveErr.http404 ∧
    (∀ (db' : ResolverDB) (tid' rid' : ℕ), tid' ∉ db'.titles →
      resolveComment db' tid' rid' = .error .http404) := by
  refine ⟨?_, by decide, ?_⟩
  · have hfil : db.reviews.filter
        (fun r => r.title = tid && r.id = rid) = [] := by
      rw [List.filter_eq_nil_iff]
      intro r hr
      simp only [Bool.and_eq_true, decide_eq_true_eq, not_and]
      intro hrt hrid
      exact hm r hr hrid hrt
    simp [resolveComment, ht, hfil]
  · intro db' tid' rid' hnt
    simp [resolveComment, hnt]

theorem c5_mismatched_review_witness :
    ((5 ∈ (⟨[5, 9], [⟨7, 9⟩]⟩ : ResolverDB).titles) ∧
      (∀ r ∈ (⟨[5, 9], [⟨7, 9⟩]⟩ : ResolverDB).reviews,
        r.id = 7 → r.title ≠ 5)) ∧
    resolveComment ⟨[5, 9], [⟨7, 9⟩]⟩ 5 7 = .error .valueError :=
  ⟨⟨by decide, by decide⟩,
    (c5_mismatched_review_raises_generic_value_error
      ⟨[5, 9], [⟨7, 9⟩]⟩ 5 7 (by decide) (by decide)).1⟩

/-- C4: for every authenticated subject and every write action on a
Review/Comment, the action is allowed iff the subject is the resource's
author, a moderator, an admin, or staff — otherwise the result is
Forbidden — while an anonymous subject performing any write is rejected
as Unauthenticated, a result distinct from Forbidden and never returned
to an authenticated subject. -/
theorem c4_review_comment_write_policy :
    (∀ (s : Subject) (a : WriteAction) (author : ℕ),
      authorizeWrite (.auth s) a author = .allow ↔
        (s.id = author ∨ s.role = Role.moderator ∨
          s.role = Role.admin ∨ s.staff = true)) ∧
    (∀ (s : Subject) (a : WriteAction) (author : ℕ),
      authorizeWrite (.auth s) a author =
        (if s.id = author ∨ s.role = Role.moderator ∨
            s.role = Role.admin ∨ s.staff = true then
          AuthzResult.allow
        else
          AuthzResult.forbidden)) ∧
    (∀ (a : WriteAction) (author : ℕ),
      authorizeWrite .anon a author = .unauthenticated) ∧
    (∀ (s : Subject) (a : WriteAction) (author : ℕ),
      authorizeWrite (.auth s) a author ≠ .unauthenticated) ∧
    AuthzResult.unauthenticated ≠ AuthzResult.forbidden := by
  refine ⟨?_, ?_, ?_, ?_, by decide⟩
  · intro s a author
    simp only [authorizeWrite]
    split
    · rename_i h
      exact iff_of_true rfl h
    · rename_i h
      exact iff_of_false (by decide) h
  · intro s a author
    rfl
  · intro a author
    rfl
  · intro s a author
    simp only [authorizeWrite]
    split
    · decide
    · decide

theorem c4_review_comment_write_policy_witness :
    authorizeWrite (.auth ⟨1, Role.user, false⟩) .update 2 =
      AuthzResult.forbidden ∧
    authorizeWrite .anon .update 2 = AuthzResult.unauthenticated :=
  ⟨by
    rw [c4_review_comment_write_policy.2.1 ⟨1, Role.user, false⟩ .update 2]
    decide,
  c4_review_comment_write_policy.2.2.1 .update 2⟩

/-- C6: `RedeemCode(username, code)` returns NotFound when no user with
that username exists; when the user exists but the code does not verify
it returns InvalidCredential, surfaced as a 400 validation-style error
and not as a 401 authentication failure; otherwise it returns an access
token carrying that user's identity. -/
theorem c6_redeem_code_trichotomy (users : List UserRec)
    (username : String) (code : ConfCode) :
    (users.find? (fun u => u.username = username) = none →
      tokenViewPost users username code = .error .notFound) ∧
    (∀ u, users.find? (fun u => u.username = username) = some u →
      check_token u code = false →
        tokenViewPost users username code = .error .invalidCredential ∧
        tokenErrStatus .invalidCredential = 400 ∧
        tokenErrStatus .invalidCredential ≠ 401) ∧
    (∀ u, users.find? (fun u => u.username = username) = some u →
      check_token u code = true →
        tokenViewPost users username code = .ok ⟨u.username⟩) := by
  refine ⟨?_, ?_, ?_⟩
  · intro h
    simp [tokenViewPost, h]
  · intro u hu hc
    refine ⟨?_, rfl, by decide⟩
    simp [tokenViewPost, hu, hc]
  · intro u hu hc
    simp [tokenViewPost, hu, hc]

theorem c6_redeem_code_trichotomy_witness :
    ([(⟨"bob", "b@x", "user"⟩ : UserRec)].find?
        (fun u => u.username = "bob") = some ⟨"bob", "b@x", "user"⟩ ∧
      check_token ⟨"bob", "b@x", "user"⟩
        (make_token ⟨"bob", "old@x", "user"⟩) = false) ∧
    tokenViewPost [⟨"bob", "b@x", "user"⟩] "bob"
      (make_token ⟨"bob", "old@x", "user"⟩) = .error .invalidCredential :=
  ⟨⟨by decide, by decide⟩,
    ((c6_redeem_code_trichotomy [⟨"bob", "b@x", "user"⟩] "bob"
      (make_token ⟨"bob", "old@x", "user"⟩)).2.1 ⟨"bob", "b@x", "user"⟩
      (by decide) (by decide)).1⟩

/-- C7: confirmation codes are verified by recomputation from the
user's current persisted state — if a code is issued for user `u`, then
the persisted email changes, redeeming the old code fails verification
and RedeemCode returns InvalidCredential. -/
theorem c7_profile_change_invalidates_code (u : UserRec) (e' : String)
    (h : e' ≠ u.email) :
    check_token { u with email := e' } (make_token u) = false ∧
    tokenViewPost [{ u with email := e' }] u.username (make_token u) =
      .error .invalidCredential := by
  have hck : check_token { u with email := e' } (make_token u) = false := by
    simp only [check_token, make_token, decide_eq_false_iff_not]
    intro hEq
    have hu : ({ u with email := e' } : UserRec) = u := by
      injection hEq
    have : e' = u.email := congrArg UserRec.email hu
    exact h this
  refine ⟨hck, ?_⟩
  simp [tokenViewPost, List.find?, hck]

theorem c7_profile_change_invalidates_code_witness :
    ("new@x" ≠ (⟨"alice", "a@x", "user"⟩ : UserRec).email) ∧
    tokenViewPost
      [{ (⟨"alice", "a@x", "user"⟩ : UserRec) with email := "new@x" }]
      "alice" (make_token ⟨"alice", "a@x", "user"⟩) =
      .error .invalidCredential :=
  ⟨by decide,
    (c7_profile_change_invalidates_code ⟨"alice", "a@x", "user"⟩ "new@x"
      (by decide)).2⟩

/-- C8: a self-service `/me` PATCH never changes the stored role — even
when the payload contains `role: "admin"` — while every other provided
profile field is applied; the role keeps its persisted value for every
user and every payload. -/
theorem c8_me_patch_never_changes_role (u : UserProfile) (p : MePayload) :
    (userRoleSerializerSave u p).role = u.role ∧
    (userRoleSerializerSave u { p with role := some "admin" }).role =
      u.role ∧
    (userRoleSerializerSave u p).username = p.username.getD u.username ∧
    (userRoleSerializerSave u p).email = p.email.getD u.email ∧
    (userRoleSerializerSave u p).first_name =
      p.first_name.getD u.first_name ∧
    (userRoleSerializerSave u p).last_name =
      p.last_name.getD u.last_name ∧
    (userRoleSerializerSave u p).bio = p.bio.getD u.bio :=
  ⟨rfl, rfl, rfl, rfl, rfl, rfl, rfl⟩

theorem c8_me_patch_never_changes_role_witness :
    (userRoleSerializerSave ⟨"eve", "e@x", "", "", "", "user"⟩
      { bio := some "hello", role := some "admin" }).role = "user" ∧
    (userRoleSerializerSave ⟨"eve", "e@x", "", "", "", "user"⟩
      { bio := some "hello", role := some "admin" }).bio = "hello" :=
  ⟨(c8_me_patch_never_changes_role ⟨"eve", "e@x", "", "", "", "user"⟩
      { bio := some "hello", role := some "admin" }).1,
    (c8_me_patch_never_changes_role ⟨"eve", "e@x", "", "", "", "user"⟩
      { bio := some "hello", role := some "admin" }).2.2.2.2.2.2⟩

/-- C10: at the model layer a `Review` built without an explicit score
gets the default score 0, which fails the attached
`MinValueValidator(1)`/`MaxValueValidator(10)` field validators (they
accept exactly the scores in [1,10]); a plain model save persists the
out-of-range row anyway, while the validating serializer layer rejects
it — so 1 ≤ score ≤ 10 is guaranteed only on the serializer path. -/
theorem c10_default_score_bypasses_field_validators :
    scoreDefault = 0 ∧
    ¬ (1 ≤ scoreDefault ∧ scoreDefault ≤ 10) ∧
    passesScoreValidators scoreDefault = false ∧
    modelSave [] (mkReviewDefault 1) = [⟨1, 0⟩] ∧
    serializerSave [] (mkReviewDefault 1) = .error () ∧
    (∀ s : ℤ, passesScoreValidators s = true ↔ (1 ≤ s ∧ s ≤ 10)) := by
  refine ⟨rfl, by decide, by decide, by decide, rfl, ?_⟩
  intro s
  simp only [passesScoreValidators, scoreValidators, List.all_cons,
    List.all_nil, Bool.and_true, Bool.and_eq_true, decide_eq_true_eq]
  exact and_comm

end Yamdb
